import Mathlib

/-!
Shallow embedding of the user CRUD service in `src/main.go`: the `User`
entity, the validation function, a model of Go's `strconv.Atoi`, a pure
model of the SQLite-backed store, and the five HTTP handlers
(Create, ReadAll, ReadOne, Update, Delete).
-/

namespace CrudService

/-- The `User` struct: `id`, `name`, `age` (`src/main.go` lines 14-18).
Go `int` is modelled as `Int`; `name` is a string whose Go `len` is the
UTF-8 byte length. -/
structure User where
  id : Int
  name : String
  age : Int
deriving Repr, DecidableEq

/-- An `echo.NewHTTPError(status, message)` value. -/
structure HTTPError where
  status : Nat
  message : String
deriving Repr, DecidableEq

/-- Maximum value of Go's 64-bit `int`. -/
def maxInt64 : Int := 2 ^ 63 - 1

/-- Minimum value of Go's 64-bit `int`. -/
def minInt64 : Int := -(2 ^ 63)

/-- Result of Go's `strconv.Atoi`: the returned `int` together with the
returned error (`none` on success). -/
structure AtoiResult where
  value : Int
  err : Option String
deriving Repr, DecidableEq

/-- The message of `strconv.ErrSyntax` wrapped by `Atoi`'s `NumError`. -/
def atoiInvalidMsg (s : String) : String :=
  "strconv.Atoi: parsing \"" ++ s ++ "\": invalid syntax"

/-- The message of `strconv.ErrRange` wrapped by `Atoi`'s `NumError`. -/
def atoiRangeMsg (s : String) : String :=
  "strconv.Atoi: parsing \"" ++ s ++ "\": value out of range"

/-- The digit characters of an `Atoi` input, after stripping one optional
leading sign. -/
def atoiDigits (s : String) : List Char :=
  match s.data with
  | '+' :: r => r
  | '-' :: r => r
  | r => r

/-- Whether an `Atoi` input starts with a minus sign. -/
def atoiNeg (s : String) : Bool :=
  match s.data with
  | '-' :: _ => true
  | _ => false

/-- `Atoi`'s well-formedness check: an optional sign followed by at least
one ASCII digit, nothing else. -/
def atoiWellFormed (s : String) : Bool :=
  !(atoiDigits s).isEmpty && (atoiDigits s).all Char.isDigit

/-- Base-10 value of a digit list, most significant first. -/
def digitsVal (cs : List Char) : Nat :=
  cs.foldl (fun n c => n * 10 + (c.toNat - '0'.toNat)) 0

/-- Go's `strconv.Atoi` (base 10, 64-bit `int`): on a malformed input it
returns `(0, ErrSyntax)`; on a numeral outside the signed 64-bit range it
returns the saturated bound together with `ErrRange`; otherwise the exact
value with no error. -/
def atoi (s : String) : AtoiResult :=
  if atoiWellFormed s then
    let v : Int := (if atoiNeg s then -1 else 1) * (digitsVal (atoiDigits s))
    if v > maxInt64 then ⟨maxInt64, some (atoiRangeMsg s)⟩
    else if v < minInt64 then ⟨minInt64, some (atoiRangeMsg s)⟩
    else ⟨v, none⟩
  else ⟨0, some (atoiInvalidMsg s)⟩

/-- `validateUser` (`src/main.go` lines 28-39): rules checked in order —
empty name, name longer than 100 bytes (Go `len`), age outside `[0, 200)`;
returns the first violation as a 400 `HTTPError`, or `none` when valid. -/
def validateUser (name : String) (age : Int) : Option HTTPError :=
  if name = "" then some ⟨400, "name is empty"⟩
  else if name.utf8ByteSize > 100 then some ⟨400, "name is too long"⟩
  else if age < 0 ∨ 200 ≤ age then some ⟨400, "age must be between 0 and 200"⟩
  else none

/-- A JSON value, as produced by `c.JSON` / Go `encoding/json`. A nil Go
slice serializes as `jnull`; a non-nil empty slice as `jarr []`. -/
inductive Json where
  | jnull
  | jnum (n : Int)
  | jstr (s : String)
  | jarr (elems : List Json)
  | jobj (fields : List (String × Json))
deriving Repr

/-- JSON encoding of a `User` per its struct tags:
`{"id": …, "name": …, "age": …}`. -/
def User.toJson (u : User) : Json :=
  .jobj [("id", .jnum u.id), ("name", .jstr u.name), ("age", .jnum u.age)]

/-- An HTTP response produced by a handler: a JSON body with a status,
`c.NoContent` (status with empty body), or an `echo.HTTPError`
(status plus message). -/
inductive Response where
  | json (status : Nat) (body : Json)
  | noContent (status : Nat)
  | httpError (status : Nat) (message : String)
deriving Repr

/-- The persisted `users` table: its rows plus the next auto-increment id
SQLite will assign. -/
structure Store where
  rows : List User
  nextId : Int
deriving Repr, DecidableEq

/-- `INSERT INTO users(name, age) VALUES(?, ?)`: appends a row with the
auto-assigned id and returns the new store and `LastInsertId`. -/
def execInsert (s : Store) (name : String) (age : Int) : Store × Int :=
  (⟨s.rows ++ [⟨s.nextId, name, age⟩], s.nextId + 1⟩, s.nextId)

/-- `UPDATE users SET name = ?, age = ? WHERE id = ?`: rewrites every
matching row and returns the new store and `RowsAffected`. -/
def execUpdate (s : Store) (id : Int) (name : String) (age : Int) :
    Store × Nat :=
  (⟨s.rows.map (fun u => if u.id = id then ⟨id, name, age⟩ else u), s.nextId⟩,
   (s.rows.filter (fun u => u.id = id)).length)

/-- `DELETE FROM users WHERE id = ?`: removes every matching row and
returns the new store and `RowsAffected`. -/
def execDelete (s : Store) (id : Int) : Store × Nat :=
  (⟨s.rows.filter (fun u => u.id ≠ id), s.nextId⟩,
   (s.rows.filter (fun u => u.id = id)).length)

/-- `SELECT id, name, age FROM users WHERE id = ?` via `QueryRow`: the
first matching row, or `none` (which `Scan` reports as `sql.ErrNoRows`). -/
def queryRow (s : Store) (id : Int) : Option User :=
  s.rows.find? (fun u => u.id = id)

/-- The `POST /users` handler (`src/main.go` lines 74-93): reads the form
values, parses age discarding the error, inserts, and returns 200 with the
inserted user; no validation. -/
def createHandler (s : Store) (nameForm ageForm : String) :
    Response × Store :=
  let name := nameForm
  let age := (atoi ageForm).value
  let (s1, id) := execInsert s name age
  (.json 200 (User.toJson ⟨id, name, age⟩), s1)

/-- The `DELETE /users/:id` handler (`src/main.go` lines 47-71): a failed
id parse is a 500 with the parse error's message; zero rows affected is a
404; otherwise 204 with no content. -/
def deleteHandler (s : Store) (idParam : String) : Response × Store :=
  match (atoi idParam).err with
  | some msg => (.httpError 500 msg, s)
  | none =>
    let id := (atoi idParam).value
    let (s1, rowsAffected) := execDelete s id
    if rowsAffected = 0 then (.httpError 404 "Not Found", s1)
    else (.noContent 204, s1)

/-- The `PUT /users/:id` handler (`src/main.go` lines 96-135): failed id
or age parses are 500s; a validation failure is returned as-is (a 400
`HTTPError`); zero rows affected is a 404; otherwise 200 with a `User`
built from the request's own id, name and age. -/
def updateHandler (s : Store) (idParam nameForm ageForm : String) :
    Response × Store :=
  match (atoi idParam).err with
  | some msg => (.httpError 500 msg, s)
  | none =>
    let id := (atoi idParam).value
    let name := nameForm
    match (atoi ageForm).err with
    | some msg => (.httpError 500 msg, s)
    | none =>
      let age := (atoi ageForm).value
      match validateUser name age with
      | some e => (.httpError e.status e.message, s)
      | none =>
        let (s1, rowsAffected) := execUpdate s id name age
        if rowsAffected = 0 then (.httpError 404 "Not Found", s1)
        else (.json 200 (User.toJson ⟨id, name, age⟩), s1)

/-- The `GET /users` handler (`src/main.go` lines 138-164): starts from a
non-nil empty slice, appends one `User` per scanned row, and returns the
JSON array with 200. -/
def readAllHandler (s : Store) : Response :=
  let users : List User := s.rows.foldl (fun acc u => acc ++ [u]) []
  .json 200 (.jarr (users.map User.toJson))

/-- The `GET /users/:id` handler (`src/main.go` lines 167-189): a failed
id parse is a 500 with the parse error's message; a missing row surfaces
`sql.ErrNoRows` as a 500 with its message; otherwise 200 with the row. -/
def readOneHandler (s : Store) (idParam : String) : Response :=
  match (atoi idParam).err with
  | some msg => .httpError 500 msg
  | none =>
    match queryRow s ((atoi idParam).value) with
    | none => .httpError 500 "sql: no rows in result set"
    | some u => .json 200 (User.toJson u)

/-! Helper lemmas. -/

/-- A string is nonempty iff its Go `len` (UTF-8 byte size) is at least 1. -/
lemma one_le_utf8ByteSize_iff (s : String) : 1 ≤ s.utf8ByteSize ↔ s ≠ "" := by
  cases s with
  | mk data =>
    rw [String.utf8ByteSize_mk, Nat.one_le_iff_ne_zero, ne_eq,
      String.utf8Len_eq_zero]
    constructor
    · intro h heq
      exact h (congrArg String.data heq)
    · intro h heq
      exact h (congrArg String.mk heq)

/-- Every violation reported by `validateUser` carries HTTP status 400. -/
lemma validateUser_status_eq_400 (name : String) (age : Int) (e : HTTPError)
    (h : validateUser name age = some e) : e.status = 400 := by
  unfold validateUser at h
  split at h
  · cases h; rfl
  · split at h
    · cases h; rfl
    · split at h
      · cases h; rfl
      · cases h

/-- Appending elements one by one from the left collects the whole list. -/
lemma foldl_append_singleton (l acc : List User) :
    l.foldl (fun a u => a ++ [u]) acc = acc ++ l := by
  induction l generalizing acc with
  | nil => simp
  | cons x xs ih => simp [List.foldl, ih]

/-- `updateHandler` on a failed id parse: 500 with the parse message,
store untouched. -/
lemma updateHandler_id_err (s : Store) (idP nameF ageF m : String)
    (h : (atoi idP).err = some m) :
    updateHandler s idP nameF ageF = (.httpError 500 m, s) := by
  unfold updateHandler
  rw [h]

/-- `updateHandler` on a failed age parse: 500 with the parse message,
store untouched. -/
lemma updateHandler_age_err (s : Store) (idP nameF ageF m : String)
    (hid : (atoi idP).err = none) (hage : (atoi ageF).err = some m) :
    updateHandler s idP nameF ageF = (.httpError 500 m, s) := by
  unfold updateHandler
  rw [hid, hage]

/-- `updateHandler` on a validation failure: the `HTTPError` is returned
as-is, store untouched. -/
lemma updateHandler_invalid (s : Store) (idP nameF ageF : String)
    (e : HTTPError) (hid : (atoi idP).err = none)
    (hage : (atoi ageF).err = none)
    (hval : validateUser nameF ((atoi ageF).value) = some e) :
    updateHandler s idP nameF ageF = (.httpError e.status e.message, s) := by
  simp only [updateHandler, hid, hage, hval]

/-- `updateHandler` on valid input matching no row: 404. -/
lemma updateHandler_zero_rows (s : Store) (idP nameF ageF : String)
    (hid : (atoi idP).err = none) (hage : (atoi ageF).err = none)
    (hval : validateUser nameF ((atoi ageF).value) = none)
    (hrows : (s.rows.filter (fun u => u.id = (atoi idP).value)).length = 0) :
    updateHandler s idP nameF ageF = (.httpError 404 "Not Found",
      ⟨s.rows.map (fun u => if u.id = (atoi idP).value then
          ⟨(atoi idP).value, nameF, (atoi ageF).value⟩ else u),
        s.nextId⟩) := by
  simp only [updateHandler, hid, hage, hval, execUpdate]
  rw [if_pos hrows]

/-- `updateHandler` on valid input matching at least one row: 200 with a
`User` built from the request's id, name and age. -/
lemma updateHandler_success (s : Store) (idP nameF ageF : String)
    (hid : (atoi idP).err = none) (hage : (atoi ageF).err = none)
    (hval : validateUser nameF ((atoi ageF).value) = none)
    (hrows : (s.rows.filter (fun u => u.id = (atoi idP).value)).length ≠ 0) :
    updateHandler s idP nameF ageF =
      (.json 200 (User.toJson ⟨(atoi idP).value, nameF, (atoi ageF).value⟩),
       ⟨s.rows.map (fun u => if u.id = (atoi idP).value then
           ⟨(atoi idP).value, nameF, (atoi ageF).value⟩ else u),
         s.nextId⟩) := by
  simp only [updateHandler, hid, hage, hval, execUpdate]
  rw [if_neg hrows]


/-- `deleteHandler` on a failed id parse: 500 with the parse message,
store untouched. -/
lemma deleteHandler_id_err (s : Store) (idP m : String)
    (h : (atoi idP).err = some m) :
    deleteHandler s idP = (.httpError 500 m, s) := by
  unfold deleteHandler
  rw [h]

/-- `deleteHandler` when no row matches: 404. -/
lemma deleteHandler_zero_rows (s : Store) (idP : String)
    (hid : (atoi idP).err = none)
    (hrows : (s.rows.filter (fun u => u.id = (atoi idP).value)).length = 0) :
    deleteHandler s idP = (.httpError 404 "Not Found",
      ⟨s.rows.filter (fun u => u.id ≠ (atoi idP).value), s.nextId⟩) := by
  simp only [deleteHandler, hid, execDelete]
  rw [if_pos hrows]

/-- `deleteHandler` when at least one row matches: 204, no content. -/
lemma deleteHandler_some_rows (s : Store) (idP : String)
    (hid : (atoi idP).err = none)
    (hrows : (s.rows.filter (fun u => u.id = (atoi idP).value)).length ≠ 0) :
    deleteHandler s idP = (.noContent 204,
      ⟨s.rows.filter (fun u => u.id ≠ (atoi idP).value), s.nextId⟩) := by
  simp only [deleteHandler, hid, execDelete]
  rw [if_neg hrows]

/-- `readOneHandler` on a failed id parse: 500 with the parse message. -/
lemma readOneHandler_id_err (s : Store) (idP m : String)
    (h : (atoi idP).err = some m) :
    readOneHandler s idP = .httpError 500 m := by
  unfold readOneHandler
  rw [h]

/-- `readOneHandler` when no row matches: the `sql.ErrNoRows` message as
a 500. -/
lemma readOneHandler_no_row (s : Store) (idP : String)
    (hid : (atoi idP).err = none)
    (hq : queryRow s ((atoi idP).value) = none) :
    readOneHandler s idP = .httpError 500 "sql: no rows in result set" := by
  simp only [readOneHandler, hid, hq]

/-- `readOneHandler` when a row matches: 200 with that row. -/
lemma readOneHandler_found (s : Store) (idP : String) (u : User)
    (hid : (atoi idP).err = none)
    (hq : queryRow s ((atoi idP).value) = some u) :
    readOneHandler s idP = .json 200 (User.toJson u) := by
  simp only [readOneHandler, hid, hq]

/-! Claim theorems. -/

/-- C1: `validateUser` accepts exactly the pairs whose name has (byte)
length in `[1, 100]` and whose age lies in `[0, 200)`; otherwise it
rejects with status 400 and the message of the first violated rule in the
fixed order: empty name, then over-long name, then out-of-range age, with
no aggregation. -/
theorem validateUser_accepts_iff_first_violation (name : String) (age : Int) :
    (validateUser name age = none ↔
      1 ≤ name.utf8ByteSize ∧ name.utf8ByteSize ≤ 100 ∧
        0 ≤ age ∧ age < 200)
    ∧ (name = "" →
        validateUser name age = some ⟨400, "name is empty"⟩)
    ∧ (name ≠ "" → 100 < name.utf8ByteSize →
        validateUser name age = some ⟨400, "name is too long"⟩)
    ∧ (name ≠ "" → name.utf8ByteSize ≤ 100 → (age < 0 ∨ 200 ≤ age) →
        validateUser name age = some ⟨400, "age must be between 0 and 200"⟩) := by
  unfold validateUser
  split_ifs with h1 h2 h3
  · refine ⟨⟨fun h => h.elim, fun hp => ?_⟩,
      fun _ => rfl, fun hn _ => absurd h1 hn, fun hn _ _ => absurd h1 hn⟩
    rw [h1] at hp
    exact absurd hp.1 (by decide)
  · refine ⟨⟨fun h => h.elim, fun hp => ?_⟩,
      fun he => absurd he h1, fun _ _ => rfl, fun _ hle _ => by omega⟩
    obtain ⟨-, hle, -⟩ := hp
    omega
  · refine ⟨⟨fun h => h.elim, fun hp => ?_⟩,
      fun he => absurd he h1, fun _ hgt => by omega, fun _ _ _ => rfl⟩
    obtain ⟨-, -, ha1, ha2⟩ := hp
    rcases h3 with h | h <;> omega
  · push_neg at h3
    refine ⟨⟨fun _ => ⟨(one_le_utf8ByteSize_iff name).mpr h1,
        by omega, by omega, by omega⟩, fun _ => rfl⟩,
      fun he => absurd he h1, fun _ hgt => by omega,
      fun _ _ hbad => ?_⟩
    rcases hbad with h | h <;> omega

/-- C1 witness: a concrete accepted pair and a concrete first-rule
rejection, obtained from the main theorem. -/
theorem validateUser_accepts_iff_first_violation_witness :
    validateUser "Alice" 30 = none ∧
    validateUser "" 300 = some ⟨400, "name is empty"⟩ :=
  ⟨(validateUser_accepts_iff_first_violation "Alice" 30).1.mpr (by decide),
   (validateUser_accepts_iff_first_violation "" 300).2.1 rfl⟩

/-- C10: the name-length check counts UTF-8 bytes, not characters — a
51-character name of 3-byte characters (153 bytes) is rejected as too
long, while every name of at most 100 bytes is never rejected by the
length rule. -/
theorem validateUser_length_counts_bytes :
    ((String.mk (List.replicate 51 'あ')).length ≤ 100
      ∧ 100 < (String.mk (List.replicate 51 'あ')).utf8ByteSize
      ∧ ∀ age : Int, validateUser (String.mk (List.replicate 51 'あ')) age =
          some ⟨400, "name is too long"⟩)
    ∧ ∀ (name : String) (age : Int), name.utf8ByteSize ≤ 100 →
        validateUser name age ≠ some ⟨400, "name is too long"⟩ := by
  constructor
  · refine ⟨by decide, by decide, fun age => ?_⟩
    unfold validateUser
    rw [if_neg (by decide), if_pos (by decide)]
  · intro name age h hcontra
    unfold validateUser at hcontra
    split_ifs at hcontra with h1 h2 h3
    · exact absurd hcontra (by decide)
    · omega
    · exact absurd hcontra (by decide)

/-- C10 witness: a concrete 100-byte-or-less name is not rejected by the
length rule, via the main theorem. -/
theorem validateUser_length_counts_bytes_witness :
    validateUser "Bob" 5 ≠ some ⟨400, "name is too long"⟩ :=
  validateUser_length_counts_bytes.2 "Bob" 5 (by decide)

/-- C3: for an Update whose id and age parse, a validation failure yields
400 with the violated-constraint message; on valid input, zero affected
rows yield 404, and at least one affected row yields 200 with a JSON
`User`. -/
theorem updateHandler_dispatch (s : Store) (idP nameF ageF : String)
    (hid : (atoi idP).err = none) (hage : (atoi ageF).err = none) :
    (∀ e, validateUser nameF ((atoi ageF).value) = some e →
        (updateHandler s idP nameF ageF).1 = .httpError 400 e.message)
    ∧ (validateUser nameF ((atoi ageF).value) = none →
        (s.rows.filter (fun u => u.id = (atoi idP).value)).length = 0 →
        (updateHandler s idP nameF ageF).1 = .httpError 404 "Not Found")
    ∧ (validateUser nameF ((atoi ageF).value) = none →
        (s.rows.filter (fun u => u.id = (atoi idP).value)).length ≠ 0 →
        (updateHandler s idP nameF ageF).1 =
          .json 200 (User.toJson ⟨(atoi idP).value, nameF, (atoi ageF).value⟩)) := by
  refine ⟨fun e hval => ?_, fun hval hrows => ?_, fun hval hrows => ?_⟩
  · rw [updateHandler_invalid s idP nameF ageF e hid hage hval,
      validateUser_status_eq_400 nameF _ e hval]
  · rw [updateHandler_zero_rows s idP nameF ageF hid hage hval hrows]
  · rw [updateHandler_success s idP nameF ageF hid hage hval hrows]

/-- C3 witness: updating the one existing user with valid input returns
200 with the submitted values, via the main theorem. -/
theorem updateHandler_dispatch_witness :
    (updateHandler ⟨[⟨1, "Alice", 30⟩], 2⟩ "1" "Bob" "31").1 =
      .json 200 (User.toJson ⟨1, "Bob", 31⟩) :=
  (updateHandler_dispatch ⟨[⟨1, "Alice", 30⟩], 2⟩ "1" "Bob" "31"
    (by decide) (by decide)).2.2 (by decide) (by decide)

/-- C4: a successful Update builds its JSON body from the request alone:
the parsed path id and the submitted name and parsed age, with no re-read
of the store. -/
theorem updateHandler_body_from_request (s : Store) (idP nameF ageF : String)
    (hid : (atoi idP).err = none) (hage : (atoi ageF).err = none)
    (hval : validateUser nameF ((atoi ageF).value) = none)
    (hrows : (s.rows.filter (fun u => u.id = (atoi idP).value)).length ≠ 0) :
    (updateHandler s idP nameF ageF).1 =
      .json 200 (.jobj [("id", .jnum ((atoi idP).value)),
        ("name", .jstr nameF), ("age", .jnum ((atoi ageF).value))]) := by
  rw [updateHandler_success s idP nameF ageF hid hage hval hrows]
  rfl

/-- C4 witness: the concrete successful update's body is exactly the
submitted values with the path id, via the main theorem. -/
theorem updateHandler_body_from_request_witness :
    (updateHandler ⟨[⟨7, "Old", 99⟩], 8⟩ "7" "New" "42").1 =
      .json 200 (.jobj [("id", .jnum 7), ("name", .jstr "New"),
        ("age", .jnum 42)]) :=
  updateHandler_body_from_request ⟨[⟨7, "Old", 99⟩], 8⟩ "7" "New" "42"
    (by decide) (by decide) (by decide) (by decide)

/-- C9: every Update failure before the write - id parse failure, age
parse failure, or validation failure - leaves the store unchanged. -/
theorem updateHandler_failure_preserves_store (s : Store)
    (idP nameF ageF m : String) (e : HTTPError) :
    ((atoi idP).err = some m → (updateHandler s idP nameF ageF).2 = s)
    ∧ ((atoi idP).err = none → (atoi ageF).err = some m →
        (updateHandler s idP nameF ageF).2 = s)
    ∧ ((atoi idP).err = none → (atoi ageF).err = none →
        validateUser nameF ((atoi ageF).value) = some e →
        (updateHandler s idP nameF ageF).2 = s) :=
  ⟨fun h => by rw [updateHandler_id_err s idP nameF ageF m h],
   fun hid hage => by rw [updateHandler_age_err s idP nameF ageF m hid hage],
   fun hid hage hval => by
     rw [updateHandler_invalid s idP nameF ageF e hid hage hval]⟩

/-- C9 witness: a rejected update (empty name) leaves a concrete store
unchanged, via the main theorem. -/
theorem updateHandler_failure_preserves_store_witness :
    (updateHandler ⟨[⟨1, "Alice", 30⟩], 2⟩ "1" "" "31").2 =
      ⟨[⟨1, "Alice", 30⟩], 2⟩ :=
  (updateHandler_failure_preserves_store ⟨[⟨1, "Alice", 30⟩], 2⟩
    "1" "" "31" "unused" ⟨400, "name is empty"⟩).2.2
    (by decide) (by decide) (by decide)

/-- C2 counterexample: the age form value `"99999999999999999999"` fails
to parse (`Atoi` reports an error), yet Create inserts and returns age
9223372036854775807 - the saturated 64-bit bound - not 0 as the claim
states. -/
theorem createHandler_unparsable_age_not_zero :
    (atoi "99999999999999999999").err.isSome = true
    ∧ (createHandler ⟨[], 1⟩ "Alice" "99999999999999999999").1 =
        .json 200 (User.toJson ⟨1, "Alice", 9223372036854775807⟩)
    ∧ (9223372036854775807 : Int) ≠ 0
    ∧ (createHandler ⟨[], 1⟩ "Alice" "99999999999999999999").1 ≠
        .json 200 (User.toJson ⟨1, "Alice", 0⟩) := by
  refine ⟨by decide, rfl, by decide, fun h => ?_⟩
  have h2 : Response.json 200 (User.toJson ⟨1, "Alice", 9223372036854775807⟩)
      = Response.json 200 (User.toJson ⟨1, "Alice", 0⟩) := h
  simp [User.toJson] at h2

/-- C2 (amended): Create performs no validation and always inserts and
returns 200 with the store-assigned id, the submitted name, and the
integer `Atoi` produced from the age form value - which is 0 whenever the
age is syntactically malformed (out-of-range numerals instead yield the
saturated 64-bit bound). -/
theorem createHandler_no_validation (s : Store) (nameF ageF : String) :
    createHandler s nameF ageF =
      (.json 200 (User.toJson ⟨s.nextId, nameF, (atoi ageF).value⟩),
       ⟨s.rows ++ [⟨s.nextId, nameF, (atoi ageF).value⟩], s.nextId + 1⟩)
    ∧ (atoiWellFormed ageF = false → (atoi ageF).value = 0) := by
  refine ⟨rfl, fun h => ?_⟩
  simp [atoi, h]

/-- C2 witness: a syntactically malformed age is inserted as 0, and even
an empty name is accepted, via the amended theorem. -/
theorem createHandler_no_validation_witness :
    atoiWellFormed "abc" = false ∧ (atoi "abc").value = 0 :=
  ⟨by decide, (createHandler_no_validation ⟨[], 1⟩ "" "abc").2 (by decide)⟩

/-- C5: for a Delete whose id parses (the model's delete statement always
succeeds), zero affected rows yield 404 and at least one affected row
yields 204 with no content. -/
theorem deleteHandler_dispatch (s : Store) (idP : String)
    (hid : (atoi idP).err = none) :
    ((s.rows.filter (fun u => u.id = (atoi idP).value)).length = 0 →
       (deleteHandler s idP).1 = .httpError 404 "Not Found")
    ∧ ((s.rows.filter (fun u => u.id = (atoi idP).value)).length ≠ 0 →
       (deleteHandler s idP).1 = .noContent 204) :=
  ⟨fun hrows => by rw [deleteHandler_zero_rows s idP hid hrows],
   fun hrows => by rw [deleteHandler_some_rows s idP hid hrows]⟩

/-- C5 witness: deleting the one existing id returns 204, via the main
theorem. -/
theorem deleteHandler_dispatch_witness :
    (deleteHandler ⟨[⟨1, "Alice", 30⟩], 2⟩ "1").1 = .noContent 204 :=
  (deleteHandler_dispatch ⟨[⟨1, "Alice", 30⟩], 2⟩ "1" (by decide)).2
    (by decide)

/-- C6: for a ReadOne whose id parses, a missing row surfaces the store's
no-rows error as a 500 with its message - never a 404 - and a matching
row is returned as JSON with 200. -/
theorem readOneHandler_dispatch (s : Store) (idP : String)
    (hid : (atoi idP).err = none) :
    (queryRow s ((atoi idP).value) = none →
       readOneHandler s idP = .httpError 500 "sql: no rows in result set"
       ∧ ∀ msg, readOneHandler s idP ≠ .httpError 404 msg)
    ∧ (∀ u, queryRow s ((atoi idP).value) = some u →
       readOneHandler s idP = .json 200 (User.toJson u)) := by
  refine ⟨fun hq => ⟨readOneHandler_no_row s idP hid hq, fun msg h => ?_⟩,
    fun u hq => readOneHandler_found s idP u hid hq⟩
  rw [readOneHandler_no_row s idP hid hq] at h
  injection h with h1 h2
  exact absurd h1 (by decide)

/-- C6 witness: reading a missing id from an empty store yields the 500
no-rows error, via the main theorem. -/
theorem readOneHandler_dispatch_witness :
    readOneHandler ⟨[], 1⟩ "3" = .httpError 500 "sql: no rows in result set" :=
  ((readOneHandler_dispatch ⟨[], 1⟩ "3" (by decide)).1 (by decide)).1

/-- C7: ReadAll returns 200 with one JSON array element per row; on a
store with no rows the body is the empty array `[]`, which is distinct
from JSON `null`. -/
theorem readAllHandler_spec (s : Store) :
    readAllHandler s = .json 200 (.jarr (s.rows.map User.toJson))
    ∧ readAllHandler ⟨[], s.nextId⟩ = .json 200 (.jarr [])
    ∧ Json.jarr [] ≠ Json.jnull := by
  refine ⟨?_, rfl, fun h => Json.noConfusion h⟩
  simp only [readAllHandler, foldl_append_singleton, List.nil_append]

/-- C7 witness: ReadAll on a concrete empty store returns the empty JSON
array, via the main theorem. -/
theorem readAllHandler_spec_witness :
    readAllHandler ⟨[], 0⟩ = .json 200 (.jarr []) :=
  (readAllHandler_spec ⟨[], 0⟩).2.1

/-- C8: a ReadOne, Update, or Delete whose id fails to parse, and an
Update whose age fails to parse, each answer 500 carrying the parse
error's message - never a 400. -/
theorem parse_failure_yields_500 (s : Store) (idP nameF ageF m : String) :
    ((atoi idP).err = some m →
       readOneHandler s idP = .httpError 500 m
       ∧ (deleteHandler s idP).1 = .httpError 500 m
       ∧ (updateHandler s idP nameF ageF).1 = .httpError 500 m
       ∧ ∀ msg, readOneHandler s idP ≠ .httpError 400 msg
         ∧ (deleteHandler s idP).1 ≠ .httpError 400 msg
         ∧ (updateHandler s idP nameF ageF).1 ≠ .httpError 400 msg)
    ∧ ((atoi idP).err = none → (atoi ageF).err = some m →
       (updateHandler s idP nameF ageF).1 = .httpError 500 m
       ∧ ∀ msg, (updateHandler s idP nameF ageF).1 ≠ .httpError 400 msg) := by
  constructor
  · intro h
    refine ⟨by rw [readOneHandler_id_err s idP m h],
      by rw [deleteHandler_id_err s idP m h],
      by rw [updateHandler_id_err s idP nameF ageF m h],
      fun msg => ⟨fun hc => ?_, fun hc => ?_, fun hc => ?_⟩⟩
    · rw [readOneHandler_id_err s idP m h] at hc
      injection hc with h1 h2
      exact absurd h1 (by decide)
    · rw [deleteHandler_id_err s idP m h] at hc
      injection hc with h1 h2
      exact absurd h1 (by decide)
    · rw [updateHandler_id_err s idP nameF ageF m h] at hc
      injection hc with h1 h2
      exact absurd h1 (by decide)
  · intro hid hage
    refine ⟨by rw [updateHandler_age_err s idP nameF ageF m hid hage],
      fun msg hc => ?_⟩
    rw [updateHandler_age_err s idP nameF ageF m hid hage] at hc
    injection hc with h1 h2
    exact absurd h1 (by decide)

/-- C8 witness: the concrete non-integer id `"abc"` makes ReadOne answer
500 with `Atoi`'s syntax-error message, via the main theorem. -/
theorem parse_failure_yields_500_witness :
    readOneHandler ⟨[], 1⟩ "abc" = .httpError 500 (atoiInvalidMsg "abc") :=
  ((parse_failure_yields_500 ⟨[], 1⟩ "abc" "" "" (atoiInvalidMsg "abc")).1
    (by decide)).1

end CrudService
